import Mathlib

/-!
Shallow embedding of `src/backend/controllers/subscriptionController.js`.

The two document stores (`Subscription`, `PaymentLog`) are modelled as lists of
records kept in insertion order; `findOne` is `List.find?`, `create` appends,
and `updateOne` patches the first matching element (`updateFirst`).  Store ids
are drawn from counters in the state.  JavaScript truthiness on strings is
modelled by treating the empty string as the only falsy string, and absent
fields by `Option`.  The HTTP layer is modelled by an explicit result value and
the payment-processor client by an environment (its product list, the session
url it would return) plus a trace of the calls issued to it.
-/

/-- One product returned by the processor's product listing. -/
structure Product where
  default_price : String
deriving Repr, DecidableEq

/-- The metadata bag attached to subscriptions / checkout sessions. -/
structure Metadata where
  userId : String
  priceId : String
  paymentLog : String
deriving Repr, DecidableEq

/-- The `data.object` of an inbound webhook event envelope. -/
structure EventObject where
  id : String
  status : Option String
  metadata : Metadata
  subscription_details_userId : String
  created : Nat
  current_period_end : Nat
  customer : String
  cancel_at_period_end : Bool
deriving Repr, DecidableEq

/-- The `data` part of the envelope. -/
structure EventData where
  object : EventObject
deriving Repr, DecidableEq

/-- An inbound webhook event envelope `{ type, data: { object } }`. -/
structure Event where
  type : String
  data : EventData
deriving Repr, DecidableEq

/-- A record of the Subscription store. -/
structure SubscriptionRecord where
  _id : Nat
  userId : String
  subscriptionId : String
  subscriptionStatus : Option String
  startDate : Nat
  endDate : Nat
  paymentStatus : String
  subscriptionType : Option String
  customerId : String
  priceId : String
deriving Repr, DecidableEq

/-- The line-item request object `{ price, quantity }` echoed into a payment log. -/
structure ReqObj where
  price : String
  quantity : Nat
deriving Repr, DecidableEq

/-- A record of the PaymentLog store; fields a given creation site does not set
are `none`. -/
structure PaymentLogRecord where
  _id : String
  userId : Option String
  request : Option ReqObj
  response : Option Event
  status : Option String
  event : Option String
deriving Repr, DecidableEq

/-- The two record stores plus fresh-id counters. -/
structure St where
  subs : List SubscriptionRecord
  logs : List PaymentLogRecord
  nextSubId : Nat
  nextLogId : Nat
deriving Repr, DecidableEq

/-- Body of a successful HTTP response. -/
inductive RespBody where
  | empty
  | url (u : String)
  | success
deriving Repr, DecidableEq

/-- Outcome of a handler: `ok` (HTTP 200) or a thrown error with the status set
before the throw and the error message. -/
inductive HttpResult where
  | ok (body : RespBody)
  | err (status : Nat) (msg : String)
deriving Repr, DecidableEq

/-- A call issued to the payment processor. -/
inductive ProcCall where
  | listProducts
  | createCheckoutSessionCall (price : String) (metadata : Metadata)
      (trial : Bool) (success_url : String) (cancel_url : String)
  | updateSubscriptionCall (subscriptionId : String) (cancel_at_period_end : Bool)
deriving Repr, DecidableEq

/-- The processor-side environment a request runs against. -/
structure StripeEnv where
  products : List Product
  sessionUrl : String
deriving Repr, DecidableEq

/-- `updateOne(filter, patch)`: patch the first record matching the filter. -/
def updateFirst (p : α → Bool) (f : α → α) : List α → List α
  | [] => []
  | x :: xs => if p x then f x :: xs else x :: updateFirst p f xs

/-- Modelled from the spec: `changeUnixTimestampFormat` lives in
`backend/common`, which is not under `src/`; the spec only says the start/end
dates are "derived from the processor's created/current-period-end timestamps",
so the conversion is modelled as the timestamp value itself. -/
def changeUnixTimestampFormat (t : Nat) : Nat := t

/-- The record built by `handleCreateSubscription` (lines 8-20). -/
def newSubRecord (subData : EventObject) (subscriptionType : Option String)
    (id : Nat) : SubscriptionRecord :=
  { _id := id
    userId := subData.metadata.userId
    subscriptionId := subData.id
    subscriptionStatus := subData.status
    startDate := changeUnixTimestampFormat subData.created
    endDate := changeUnixTimestampFormat subData.current_period_end
    paymentStatus := "complete"
    subscriptionType := subscriptionType
    customerId := subData.customer
    priceId := subData.metadata.priceId }

/-- `handleCreateSubscription(subData, subscriptionType)`: `Subscription.create`. -/
def handleCreateSubscription (subData : EventObject)
    (subscriptionType : Option String) (st : St) : St :=
  { st with
    subs := st.subs ++ [newSubRecord subData subscriptionType st.nextSubId]
    nextSubId := st.nextSubId + 1 }

/-- Filter of the `Subscription.findOne` at lines 151-154:
matching subscription id with status `incomplete`. -/
def incompleteFilter (o : EventObject) (r : SubscriptionRecord) : Bool :=
  r.subscriptionId == o.id && r.subscriptionStatus == some "incomplete"

/-- Filter `{_id: id}` on the Subscription store. -/
def subIdFilter (id : Nat) (r : SubscriptionRecord) : Bool :=
  r._id == id

/-- Filter `{_id: id}` on the PaymentLog store. -/
def logIdFilter (id : String) (l : PaymentLogRecord) : Bool :=
  l._id == id

/-- Filter of the `Subscription.findOne` at lines 47-58: an `active` or
`trialing` subscription of the user with `endDate >= now`. -/
def activeFilter (uid : String) (now : Nat) (r : SubscriptionRecord) : Bool :=
  r.userId == uid &&
    (r.subscriptionStatus == some "active" || r.subscriptionStatus == some "trialing") &&
    decide (now ≤ r.endDate)

/-- Filter of the `Subscription.findOne` at lines 213-225 of `cancelSubscription`. -/
def cancelSubFilter (uid sid : String) (now : Nat) (r : SubscriptionRecord) : Bool :=
  r.userId == uid && r.subscriptionId == sid &&
    (r.subscriptionStatus == some "active" || r.subscriptionStatus == some "trialing") &&
    decide (now ≤ r.endDate)

/-- The `userId` the webhook attaches to its payment log (lines 123-137). -/
def webhookUserId (ev : Event) : Option String :=
  if ev.type == "invoice.payment_succeeded" || ev.type == "invoice.updated" ||
      ev.type == "invoice.created" then
    some ev.data.object.subscription_details_userId
  else if ev.type == "customer.subscription.created" ||
      ev.type == "customer.subscription.updated" ||
      ev.type == "checkout.session.completed" ||
      ev.type == "payment_intent.succeeded" ||
      ev.type == "payment_intent.created" then
    some ev.data.object.metadata.userId
  else
    none

/-- `data.object && data.object.status ? data.object.status : "NO-STATUS"`
(lines 117-118); the empty string is falsy in JavaScript. -/
def derivedStatus (o : EventObject) : String :=
  match o.status with
  | some s => if s == "" then "NO-STATUS" else s
  | none => "NO-STATUS"

/-- The `createObj` the webhook persists to the PaymentLog store (lines 115-137). -/
def webhookCreateObj (ev : Event) (st : St) : PaymentLogRecord :=
  { _id := toString st.nextLogId
    userId := webhookUserId ev
    request := none
    response := some ev
    status := some (derivedStatus ev.data.object)
    event := some ev.type }

/-- The patch of lines 156-162: set `subscriptionStatus` to `active` and
`subscriptionType` to `new`. -/
def incompleteTransition (r : SubscriptionRecord) : SubscriptionRecord :=
  { r with subscriptionStatus := some "active", subscriptionType := some "new" }

/-- The `PaymentLog.updateOne` patch of lines 167-175. -/
def renewalLogPatch (ev : Event) (l : PaymentLogRecord) : PaymentLogRecord :=
  { l with
    response := some ev
    status := if ev.data.object.status == some "active" then some "success"
              else ev.data.object.status
    event := some ev.type }

/-- Lines 139-142: persist the payment log unless the event type is
`charge.succeeded` or `payment_method.attached`. -/
def webhookLogStep (ev : Event) (st : St) : St :=
  if ev.type != "charge.succeeded" && ev.type != "payment_method.attached" then
    { st with logs := st.logs ++ [webhookCreateObj ev st], nextLogId := st.nextLogId + 1 }
  else st

/-- Lines 144-148: create a subscription record on `customer.subscription.created`. -/
def webhookCreatedStep (ev : Event) (st : St) : St :=
  if ev.type == "customer.subscription.created" then
    handleCreateSubscription ev.data.object ev.data.object.status st
  else st

/-- Lines 149-178: the `customer.subscription.updated` reconciliation. -/
def webhookUpdatedStep (ev : Event) (st : St) : St :=
  if ev.type == "customer.subscription.updated" then
    match st.subs.find? (incompleteFilter ev.data.object) with
    | some sub =>
      { st with subs := updateFirst (subIdFilter sub._id) incompleteTransition st.subs }
    | none =>
      if !ev.data.object.cancel_at_period_end then
        let st1 := handleCreateSubscription ev.data.object (some "renewal") st
        { st1 with
          logs := updateFirst (logIdFilter ev.data.object.metadata.paymentLog)
            (renewalLogPatch ev) st1.logs }
      else st
  else st

/-- The store state after the webhook handler runs. -/
def webhookState (ev : Event) (st : St) : St :=
  webhookUpdatedStep ev (webhookCreatedStep ev (webhookLogStep ev st))

/-- `webHook` (lines 111-180): run the three steps, then `res.status(200).json()`. -/
def webHook (ev : Event) (st : St) : St × HttpResult :=
  (webhookState ev st, HttpResult.ok RespBody.empty)

/-- The request body of `createCheckoutSession`. -/
structure CheckoutBody where
  type : Option String
  successUrl : Option String
  cancelUrl : Option String
deriving Repr, DecidableEq

/-- The `PaymentLog.create` of lines 71-74: the payment log of a checkout attempt. -/
def checkoutLogRecord (uid : String) (reqObj : ReqObj) (id : String) : PaymentLogRecord :=
  { _id := id
    userId := some uid
    request := some reqObj
    response := none
    status := none
    event := none }

/-- `createCheckoutSession` (lines 25-106).  `users` is the User store (ids of
existing users), `uid` is `req.user._id`, `now` the current time; the third
component of the result is the trace of processor calls issued. -/
def createCheckoutSession (stripe : StripeEnv) (uid : String) (users : List String)
    (body : CheckoutBody) (now : Nat) (st : St) : St × HttpResult × List ProcCall :=
  let type := body.type.getD ""
  let successUrl := body.successUrl.getD ""
  let cancelUrl := body.cancelUrl.getD ""
  if successUrl == "" || cancelUrl == "" then
    (st, HttpResult.err 400 "Please pass required all parameters.", [])
  else if type != "" && type != "trial" then
    (st, HttpResult.err 400 "Please pass valid type", [])
  else if !users.contains uid then
    (st, HttpResult.err 401 "User not found.", [])
  else
    match st.subs.find? (activeFilter uid now) with
    | some _ => (st, HttpResult.err 401 "Subscription already exist.", [])
    | none =>
      match stripe.products with
      | [] => (st, HttpResult.err 401 "Plan not found.", [ProcCall.listProducts])
      | p :: _ =>
        let reqObj : ReqObj := { price := p.default_price, quantity := 1 }
        let paymentId := toString st.nextLogId
        let st1 := { st with
          logs := st.logs ++ [checkoutLogRecord uid reqObj paymentId]
          nextLogId := st.nextLogId + 1 }
        let metaDataObj : Metadata :=
          { userId := uid, priceId := p.default_price, paymentLog := paymentId }
        (st1, HttpResult.ok (RespBody.url stripe.sessionUrl),
          [ProcCall.listProducts,
           ProcCall.createCheckoutSessionCall p.default_price metaDataObj
             (type == "trial") successUrl (cancelUrl ++ "?id=" ++ paymentId)])

/-- `cancelPayment` (lines 185-200).  `uid` is the authenticated caller, which
the source never reads. -/
def cancelPayment (uid : String) (bodyPaymentId : Option String) (st : St) :
    St × HttpResult :=
  let paymentId := bodyPaymentId.getD ""
  if paymentId == "" then
    (st, HttpResult.err 400 "Please pass required all parameters.")
  else
    ({ st with
        logs := updateFirst (logIdFilter paymentId)
          (fun l => { l with status := some "cancel", event := some "cancel" }) st.logs },
     HttpResult.ok RespBody.success)

/-- `cancelSubscription` (lines 205-237); the third component of the result is
the trace of processor calls issued. -/
def cancelSubscription (uid : String) (bodySubscriptionId : Option String)
    (now : Nat) (st : St) : St × HttpResult × List ProcCall :=
  let subscriptionId := bodySubscriptionId.getD ""
  if subscriptionId == "" then
    (st, HttpResult.err 400 "Please pass required all parameters.", [])
  else
    match st.subs.find? (cancelSubFilter uid subscriptionId now) with
    | none => (st, HttpResult.err 400 "Subscription does not exist.", [])
    | some _ =>
      (st, HttpResult.ok RespBody.success,
        [ProcCall.updateSubscriptionCall subscriptionId true])

/-! ### Store-operation lemmas -/

theorem updateFirst_length (p : α → Bool) (f : α → α) (xs : List α) :
    (updateFirst p f xs).length = xs.length := by
  induction xs with
  | nil => rfl
  | cons x xs ih => by_cases h : p x = true <;> simp [updateFirst, h, ih]

theorem updateFirst_getElem? (p : α → Bool) (f : α → α) (xs : List α) (i : Nat) :
    (updateFirst p f xs)[i]? = xs[i]? ∨
      ∃ r, xs[i]? = some r ∧ p r = true ∧ (updateFirst p f xs)[i]? = some (f r) := by
  induction xs generalizing i with
  | nil => left; rfl
  | cons x xs ih =>
    by_cases h : p x = true
    · cases i with
      | zero => right; exact ⟨x, by simp, h, by simp [updateFirst, h]⟩
      | succ j => left; simp [updateFirst, h]
    · cases i with
      | zero => left; simp [updateFirst, h]
      | succ j =>
        rcases ih j with h1 | ⟨r, hr, hp, he⟩
        · left; simpa [updateFirst, h] using h1
        · right; exact ⟨r, by simpa using hr, hp, by simpa [updateFirst, h] using he⟩

theorem find?_append_first (p : α → Bool) (xs ys : List α) (l : α)
    (h : xs.find? p = some l) : (xs ++ ys).find? p = some l := by
  induction xs with
  | nil => simp at h
  | cons x xs ih =>
    by_cases hx : p x = true
    · rw [List.find?_cons_of_pos _ hx] at h
      rw [List.cons_append, List.find?_cons_of_pos _ hx]
      exact h
    · rw [List.find?_cons_of_neg _ hx] at h
      rw [List.cons_append, List.find?_cons_of_neg _ hx]
      exact ih h

theorem find?_updateFirst (p : α → Bool) (f : α → α) (xs : List α) (l : α)
    (h : xs.find? p = some l) (hf : p (f l) = true) :
    (updateFirst p f xs).find? p = some (f l) := by
  induction xs with
  | nil => simp at h
  | cons x xs ih =>
    by_cases hx : p x = true
    · rw [List.find?_cons_of_pos _ hx] at h
      injection h with h
      subst h
      simp only [updateFirst, if_pos hx]
      rw [List.find?_cons_of_pos _ hf]
    · rw [List.find?_cons_of_neg _ hx] at h
      simp only [updateFirst, if_neg hx]
      rw [List.find?_cons_of_neg _ hx]
      exact ih h

theorem find?_exists_of_mem (p : α → Bool) (xs : List α) (a : α)
    (ha : a ∈ xs) (hp : p a = true) : ∃ l, xs.find? p = some l := by
  have : (xs.find? p).isSome := List.find?_isSome.mpr ⟨a, ha, hp⟩
  exact Option.isSome_iff_exists.mp this

/-! ### Webhook branch characterizations -/

theorem webhookLogStep_subs (ev : Event) (st : St) :
    (webhookLogStep ev st).subs = st.subs := by
  unfold webhookLogStep
  split <;> rfl

theorem webhookCreatedStep_logs (ev : Event) (st : St) :
    (webhookCreatedStep ev st).logs = st.logs := by
  unfold webhookCreatedStep handleCreateSubscription
  split <;> rfl

theorem webhookState_incomplete (ev : Event) (st : St) (sub : SubscriptionRecord)
    (hty : ev.type = "customer.subscription.updated")
    (hfind : st.subs.find? (incompleteFilter ev.data.object) = some sub) :
    (webhookState ev st).subs =
      updateFirst (subIdFilter sub._id) incompleteTransition st.subs := by
  have h1 : (ev.type != "charge.succeeded" && ev.type != "payment_method.attached") = true := by
    rw [hty]; rfl
  have h2 : (ev.type == "customer.subscription.created") = false := by
    rw [hty]; rfl
  have h3 : (ev.type == "customer.subscription.updated") = true := by
    rw [hty]; rfl
  simp [webhookState, webhookLogStep, webhookCreatedStep, webhookUpdatedStep,
    h1, h2, h3, hfind]

theorem webhookState_renewal (ev : Event) (st : St)
    (hty : ev.type = "customer.subscription.updated")
    (hnone : st.subs.find? (incompleteFilter ev.data.object) = none)
    (hcap : ev.data.object.cancel_at_period_end = false) :
    webhookState ev st =
      { subs := st.subs ++ [newSubRecord ev.data.object (some "renewal") st.nextSubId]
        logs := updateFirst (logIdFilter ev.data.object.metadata.paymentLog)
          (renewalLogPatch ev) (st.logs ++ [webhookCreateObj ev st])
        nextSubId := st.nextSubId + 1
        nextLogId := st.nextLogId + 1 } := by
  have h1 : (ev.type != "charge.succeeded" && ev.type != "payment_method.attached") = true := by
    rw [hty]; rfl
  have h2 : (ev.type == "customer.subscription.created") = false := by
    rw [hty]; rfl
  have h3 : (ev.type == "customer.subscription.updated") = true := by
    rw [hty]; rfl
  simp [webhookState, webhookLogStep, webhookCreatedStep, webhookUpdatedStep,
    handleCreateSubscription, h1, h2, h3, hnone, hcap]

theorem webhookState_created (ev : Event) (st : St)
    (hty : ev.type = "customer.subscription.created") :
    webhookState ev st =
      { subs := st.subs ++ [newSubRecord ev.data.object ev.data.object.status st.nextSubId]
        logs := st.logs ++ [webhookCreateObj ev st]
        nextSubId := st.nextSubId + 1
        nextLogId := st.nextLogId + 1 } := by
  have h1 : (ev.type != "charge.succeeded" && ev.type != "payment_method.attached") = true := by
    rw [hty]; rfl
  have h2 : (ev.type == "customer.subscription.created") = true := by
    rw [hty]; rfl
  have h3 : (ev.type == "customer.subscription.updated") = false := by
    rw [hty]; rfl
  simp [webhookState, webhookLogStep, webhookCreatedStep, webhookUpdatedStep,
    handleCreateSubscription, h1, h2, h3]

/-! ### Claim theorems -/

/-- C1: for every `customer.subscription.updated` event whose subscription id
matches an existing record with status `incomplete`, the webhook transitions
the matched record to `subscriptionStatus = active`, `subscriptionType = new`,
and creates no new `SubscriptionRecord` (the store keeps its length). -/
theorem webhook_incomplete_updates (ev : Event) (st : St) (sub : SubscriptionRecord)
    (hty : ev.type = "customer.subscription.updated")
    (hfind : st.subs.find? (incompleteFilter ev.data.object) = some sub) :
    ((webHook ev st).1).subs.length = st.subs.length ∧
      ∃ r', ((webHook ev st).1).subs.find? (subIdFilter sub._id) = some r' ∧
        r'.subscriptionStatus = some "active" ∧ r'.subscriptionType = some "new" := by
  have hsubs : ((webHook ev st).1).subs =
      updateFirst (subIdFilter sub._id) incompleteTransition st.subs :=
    webhookState_incomplete ev st sub hty hfind
  constructor
  · rw [hsubs, updateFirst_length]
  · have hmem : sub ∈ st.subs := List.mem_of_find?_eq_some hfind
    have hp : subIdFilter sub._id sub = true := by simp [subIdFilter]
    obtain ⟨l, hl⟩ := find?_exists_of_mem (subIdFilter sub._id) st.subs sub hmem hp
    have hpf : subIdFilter sub._id (incompleteTransition l) = true := by
      have hpl : subIdFilter sub._id l = true := List.find?_some hl
      simpa [subIdFilter, incompleteTransition] using hpl
    refine ⟨incompleteTransition l, ?_, rfl, rfl⟩
    rw [hsubs]
    exact find?_updateFirst _ _ _ _ hl hpf

/-- C1 witness: a concrete incomplete record transitioned by a matching update
event. -/
theorem webhook_incomplete_updates_witness :
    ((webHook
        ⟨"customer.subscription.updated",
          ⟨⟨"sub1", some "active", ⟨"u1", "pr1", "pl1"⟩, "u1", 3, 9, "cus1", false⟩⟩⟩
        ⟨[⟨7, "u1", "sub1", some "incomplete", 1, 9, "complete", some "trial", "cus1", "pr1"⟩],
          [], 8, 0⟩).1).subs.length =
      (⟨[⟨7, "u1", "sub1", some "incomplete", 1, 9, "complete", some "trial", "cus1", "pr1"⟩],
          [], 8, 0⟩ : St).subs.length ∧
    ∃ r', ((webHook
        ⟨"customer.subscription.updated",
          ⟨⟨"sub1", some "active", ⟨"u1", "pr1", "pl1"⟩, "u1", 3, 9, "cus1", false⟩⟩⟩
        ⟨[⟨7, "u1", "sub1", some "incomplete", 1, 9, "complete", some "trial", "cus1", "pr1"⟩],
          [], 8, 0⟩).1).subs.find? (subIdFilter 7) = some r' ∧
      r'.subscriptionStatus = some "active" ∧ r'.subscriptionType = some "new" :=
  webhook_incomplete_updates
    ⟨"customer.subscription.updated",
      ⟨⟨"sub1", some "active", ⟨"u1", "pr1", "pl1"⟩, "u1", 3, 9, "cus1", false⟩⟩⟩
    ⟨[⟨7, "u1", "sub1", some "incomplete", 1, 9, "complete", some "trial", "cus1", "pr1"⟩],
      [], 8, 0⟩
    ⟨7, "u1", "sub1", some "incomplete", 1, 9, "complete", some "trial", "cus1", "pr1"⟩
    rfl (by decide)

/-- C9: the `incomplete -> active` transition updates only `subscriptionStatus`
and `subscriptionType`; every other field of every record (and every record
whose `_id` differs from the matched one) is left unchanged, and the store
keeps its length. -/
theorem webhook_incomplete_frame (ev : Event) (st : St) (sub : SubscriptionRecord)
    (hty : ev.type = "customer.subscription.updated")
    (hfind : st.subs.find? (incompleteFilter ev.data.object) = some sub) :
    ((webHook ev st).1).subs.length = st.subs.length ∧
      ∀ (i : Nat) (r r' : SubscriptionRecord), st.subs[i]? = some r → ((webHook ev st).1).subs[i]? = some r' →
        (r'.userId = r.userId ∧ r'.subscriptionId = r.subscriptionId ∧
          r'.startDate = r.startDate ∧ r'.endDate = r.endDate ∧
          r'.paymentStatus = r.paymentStatus ∧ r'.customerId = r.customerId ∧
          r'.priceId = r.priceId ∧ r'._id = r._id) ∧
        (r._id ≠ sub._id → r' = r) := by
  have hsubs : ((webHook ev st).1).subs =
      updateFirst (subIdFilter sub._id) incompleteTransition st.subs :=
    webhookState_incomplete ev st sub hty hfind
  constructor
  · rw [hsubs, updateFirst_length]
  · intro i r r' hr hr'
    rw [hsubs] at hr'
    rcases updateFirst_getElem? (subIdFilter sub._id) incompleteTransition st.subs i with
      h | ⟨q, hq, hpq, hq'⟩
    · rw [h, hr] at hr'
      injection hr' with hr'
      subst hr'
      exact ⟨⟨rfl, rfl, rfl, rfl, rfl, rfl, rfl, rfl⟩, fun _ => rfl⟩
    · rw [hq] at hr
      injection hr with hr
      subst hr
      rw [hq'] at hr'
      injection hr' with hr'
      subst hr'
      refine ⟨⟨rfl, rfl, rfl, rfl, rfl, rfl, rfl, rfl⟩, fun hne => ?_⟩
      have : q._id = sub._id := by simpa [subIdFilter] using hpq
      exact absurd this hne

/-- C9 witness: the frame property at a concrete two-record store where only
the first record matches. -/
theorem webhook_incomplete_frame_witness :
    ((webHook
        ⟨"customer.subscription.updated",
          ⟨⟨"sub1", some "active", ⟨"u1", "pr1", "pl1"⟩, "u1", 3, 9, "cus1", false⟩⟩⟩
        ⟨[⟨7, "u1", "sub1", some "incomplete", 1, 9, "complete", some "trial", "cus1", "pr1"⟩,
            ⟨8, "u2", "sub2", some "active", 2, 9, "complete", some "new", "cus2", "pr2"⟩],
          [], 9, 0⟩).1).subs.length =
      (⟨[⟨7, "u1", "sub1", some "incomplete", 1, 9, "complete", some "trial", "cus1", "pr1"⟩,
            ⟨8, "u2", "sub2", some "active", 2, 9, "complete", some "new", "cus2", "pr2"⟩],
          [], 9, 0⟩ : St).subs.length ∧
    ∀ (i : Nat) (r r' : SubscriptionRecord),
      (⟨[⟨7, "u1", "sub1", some "incomplete", 1, 9, "complete", some "trial", "cus1", "pr1"⟩,
            ⟨8, "u2", "sub2", some "active", 2, 9, "complete", some "new", "cus2", "pr2"⟩],
          [], 9, 0⟩ : St).subs[i]? = some r →
      ((webHook
        ⟨"customer.subscription.updated",
          ⟨⟨"sub1", some "active", ⟨"u1", "pr1", "pl1"⟩, "u1", 3, 9, "cus1", false⟩⟩⟩
        ⟨[⟨7, "u1", "sub1", some "incomplete", 1, 9, "complete", some "trial", "cus1", "pr1"⟩,
            ⟨8, "u2", "sub2", some "active", 2, 9, "complete", some "new", "cus2", "pr2"⟩],
          [], 9, 0⟩).1).subs[i]? = some r' →
        (r'.userId = r.userId ∧ r'.subscriptionId = r.subscriptionId ∧
          r'.startDate = r.startDate ∧ r'.endDate = r.endDate ∧
          r'.paymentStatus = r.paymentStatus ∧ r'.customerId = r.customerId ∧
          r'.priceId = r.priceId ∧ r'._id = r._id) ∧
        (r._id ≠ 7 → r' = r) :=
  webhook_incomplete_frame
    ⟨"customer.subscription.updated",
      ⟨⟨"sub1", some "active", ⟨"u1", "pr1", "pl1"⟩, "u1", 3, 9, "cus1", false⟩⟩⟩
    ⟨[⟨7, "u1", "sub1", some "incomplete", 1, 9, "complete", some "trial", "cus1", "pr1"⟩,
        ⟨8, "u2", "sub2", some "active", 2, 9, "complete", some "new", "cus2", "pr2"⟩],
      [], 9, 0⟩
    ⟨7, "u1", "sub1", some "incomplete", 1, 9, "complete", some "trial", "cus1", "pr1"⟩
    rfl (by decide)

/-- C3: a `customer.subscription.created` event appends exactly one
`SubscriptionRecord` whose `subscriptionStatus` and `subscriptionType` both
equal the processor status, whose dates come from the `created` and
`current_period_end` timestamps, and whose `paymentStatus` is `complete`. -/
theorem webhook_created_creates_record (ev : Event) (st : St)
    (hty : ev.type = "customer.subscription.created") :
    ∃ r, ((webHook ev st).1).subs = st.subs ++ [r] ∧
      r.subscriptionStatus = ev.data.object.status ∧
      r.subscriptionType = ev.data.object.status ∧
      r.startDate = changeUnixTimestampFormat ev.data.object.created ∧
      r.endDate = changeUnixTimestampFormat ev.data.object.current_period_end ∧
      r.paymentStatus = "complete" ∧
      r.userId = ev.data.object.metadata.userId := by
  refine ⟨newSubRecord ev.data.object ev.data.object.status st.nextSubId,
    ?_, rfl, rfl, rfl, rfl, rfl, rfl⟩
  have h := webhookState_created ev st hty
  show (webhookState ev st).subs = _
  rw [h]

/-- C3 witness: a concrete `trialing` creation event. -/
theorem webhook_created_creates_record_witness :
    ∃ r, ((webHook
        ⟨"customer.subscription.created",
          ⟨⟨"sub9", some "trialing", ⟨"u1", "pr1", "pl1"⟩, "u1", 4, 11, "cus1", false⟩⟩⟩
        ⟨[], [], 0, 0⟩).1).subs = ([] : List SubscriptionRecord) ++ [r] ∧
      r.subscriptionStatus = some "trialing" ∧
      r.subscriptionType = some "trialing" ∧
      r.startDate = changeUnixTimestampFormat 4 ∧
      r.endDate = changeUnixTimestampFormat 11 ∧
      r.paymentStatus = "complete" ∧
      r.userId = "u1" :=
  webhook_created_creates_record
    ⟨"customer.subscription.created",
      ⟨⟨"sub9", some "trialing", ⟨"u1", "pr1", "pl1"⟩, "u1", 4, 11, "cus1", false⟩⟩⟩
    ⟨[], [], 0, 0⟩ rfl

/-- C5: the webhook handler answers every inbound event with HTTP 200 and an
empty body, whatever the event type and store contents. -/
theorem webhook_always_ok200_empty (ev : Event) (st : St) :
    (webHook ev st).2 = HttpResult.ok RespBody.empty := rfl

/-- C2: a `customer.subscription.updated` event with `cancel_at_period_end`
false and no matching incomplete record appends exactly one new
`SubscriptionRecord` with `subscriptionType = renewal`, and patches the
payment log whose id equals `data.object.metadata.paymentLog` with the full
envelope, the event type, and status `success` when the processor status is
`active` (the raw processor status otherwise). -/
theorem webhook_renewal_creates_and_updates (ev : Event) (st : St) (l : PaymentLogRecord)
    (hty : ev.type = "customer.subscription.updated")
    (hcap : ev.data.object.cancel_at_period_end = false)
    (hnone : st.subs.find? (incompleteFilter ev.data.object) = none)
    (hlog : st.logs.find? (logIdFilter ev.data.object.metadata.paymentLog) = some l) :
    (∃ r, ((webHook ev st).1).subs = st.subs ++ [r] ∧
        r.subscriptionType = some "renewal") ∧
      ∃ l', ((webHook ev st).1).logs.find?
          (logIdFilter ev.data.object.metadata.paymentLog) = some l' ∧
        l'.status = (if ev.data.object.status = some "active" then some "success"
          else ev.data.object.status) ∧
        l'.response = some ev ∧ l'.event = some ev.type ∧
        l'._id = l._id ∧ l'.userId = l.userId ∧ l'.request = l.request := by
  have h := webhookState_renewal ev st hty hnone hcap
  constructor
  · refine ⟨newSubRecord ev.data.object (some "renewal") st.nextSubId, ?_, rfl⟩
    show (webhookState ev st).subs = _
    rw [h]
  · have hfl : (st.logs ++ [webhookCreateObj ev st]).find?
        (logIdFilter ev.data.object.metadata.paymentLog) = some l :=
      find?_append_first _ _ _ _ hlog
    have hpl : logIdFilter ev.data.object.metadata.paymentLog l = true :=
      List.find?_some hlog
    have hppatch : logIdFilter ev.data.object.metadata.paymentLog
        (renewalLogPatch ev l) = true := by
      simpa [logIdFilter, renewalLogPatch] using hpl
    refine ⟨renewalLogPatch ev l, ?_, ?_, rfl, rfl, rfl, rfl, rfl⟩
    · show (webhookState ev st).logs.find? _ = _
      rw [h]
      exact find?_updateFirst _ _ _ _ hfl hppatch
    · by_cases hs : ev.data.object.status = some "active"
      · simp [renewalLogPatch, hs]
      · simp [renewalLogPatch, hs]

/-- C2 witness: a concrete renewal update whose referenced payment log exists
and whose processor status is `active`. -/
theorem webhook_renewal_creates_and_updates_witness :
    (∃ r, ((webHook
        ⟨"customer.subscription.updated",
          ⟨⟨"sub2", some "active", ⟨"u1", "pr1", "pl1"⟩, "u1", 3, 9, "cus1", false⟩⟩⟩
        ⟨[], [⟨"pl1", some "u1", some ⟨"pr1", 1⟩, none, none, none⟩], 0, 5⟩).1).subs =
        ([] : List SubscriptionRecord) ++ [r] ∧
      r.subscriptionType = some "renewal") ∧
    ∃ l', ((webHook
        ⟨"customer.subscription.updated",
          ⟨⟨"sub2", some "active", ⟨"u1", "pr1", "pl1"⟩, "u1", 3, 9, "cus1", false⟩⟩⟩
        ⟨[], [⟨"pl1", some "u1", some ⟨"pr1", 1⟩, none, none, none⟩], 0, 5⟩).1).logs.find?
          (logIdFilter "pl1") = some l' ∧
      l'.status = (if (some "active" : Option String) = some "active" then some "success"
        else some "active") ∧
      l'.response = some ⟨"customer.subscription.updated",
        ⟨⟨"sub2", some "active", ⟨"u1", "pr1", "pl1"⟩, "u1", 3, 9, "cus1", false⟩⟩⟩ ∧
      l'.event = some "customer.subscription.updated" ∧
      l'._id = "pl1" ∧ l'.userId = some "u1" ∧ l'.request = some ⟨"pr1", 1⟩ :=
  webhook_renewal_creates_and_updates
    ⟨"customer.subscription.updated",
      ⟨⟨"sub2", some "active", ⟨"u1", "pr1", "pl1"⟩, "u1", 3, 9, "cus1", false⟩⟩⟩
    ⟨[], [⟨"pl1", some "u1", some ⟨"pr1", 1⟩, none, none, none⟩], 0, 5⟩
    ⟨"pl1", some "u1", some ⟨"pr1", 1⟩, none, none, none⟩
    rfl rfl rfl (by decide)

theorem webhookUpdatedStep_logs (ev : Event) (st : St) :
    (webhookUpdatedStep ev st).logs = st.logs ∨
      (webhookUpdatedStep ev st).logs =
        updateFirst (logIdFilter ev.data.object.metadata.paymentLog)
          (renewalLogPatch ev) st.logs := by
  unfold webhookUpdatedStep
  split
  · split
    · left; rfl
    · split
      · right; simp [handleCreateSubscription]
      · left; rfl
  · left; rfl

/-- C4 (amended): unless the event type is `charge.succeeded` or
`payment_method.attached`, the webhook appends exactly one payment log
capturing the full envelope, the event type, and a status equal to
`data.object.status` when that is present and non-empty and `NO-STATUS`
otherwise (provided the incoming `metadata.paymentLog` does not collide with
the store's freshly assigned log id); for the two excluded types no payment
log is created. -/
theorem webhook_paymentlog_creation (ev : Event) (st : St)
    (hfresh : ev.data.object.metadata.paymentLog ≠ toString st.nextLogId) :
    (ev.type = "charge.succeeded" ∨ ev.type = "payment_method.attached" →
        ((webHook ev st).1).logs = st.logs) ∧
      (ev.type ≠ "charge.succeeded" → ev.type ≠ "payment_method.attached" →
        ((webHook ev st).1).logs.length = st.logs.length + 1 ∧
          ∃ nl, ((webHook ev st).1).logs[st.logs.length]? = some nl ∧
            nl.response = some ev ∧ nl.event = some ev.type ∧
            (∀ s, ev.data.object.status = some s → s ≠ "" → nl.status = some s) ∧
            ((ev.data.object.status = none ∨ ev.data.object.status = some "") →
              nl.status = some "NO-STATUS")) := by
  constructor
  · intro h
    have h1 : (ev.type != "charge.succeeded" && ev.type != "payment_method.attached") = false := by
      rcases h with h | h <;> rw [h] <;> rfl
    have h2 : (ev.type == "customer.subscription.updated") = false := by
      rcases h with h | h <;> rw [h] <;> rfl
    show (webhookState ev st).logs = st.logs
    unfold webhookState
    rw [show webhookLogStep ev st = st by simp [webhookLogStep, h1]]
    rw [show webhookUpdatedStep ev (webhookCreatedStep ev st) = webhookCreatedStep ev st by
      simp [webhookUpdatedStep, h2]]
    exact webhookCreatedStep_logs ev st
  · intro h1 h2
    have e1 : (ev.type == "charge.succeeded") = false := beq_eq_false_iff_ne.mpr h1
    have e2 : (ev.type == "payment_method.attached") = false := beq_eq_false_iff_ne.mpr h2
    have hcond : (ev.type != "charge.succeeded" && ev.type != "payment_method.attached") = true := by
      simp [bne, e1, e2]
    have hlogstep : (webhookLogStep ev st).logs = st.logs ++ [webhookCreateObj ev st] := by
      simp [webhookLogStep, hcond]
    have hcase := webhookUpdatedStep_logs ev (webhookCreatedStep ev (webhookLogStep ev st))
    rw [webhookCreatedStep_logs, hlogstep] at hcase
    have hobj : logIdFilter ev.data.object.metadata.paymentLog (webhookCreateObj ev st) = false := by
      have : toString st.nextLogId ≠ ev.data.object.metadata.paymentLog := fun h => hfresh h.symm
      simpa [logIdFilter, webhookCreateObj] using this
    have hstatus1 : ∀ s, ev.data.object.status = some s → s ≠ "" →
        (webhookCreateObj ev st).status = some s := by
      intro s hs hne
      have : (s == "") = false := beq_eq_false_iff_ne.mpr hne
      simp [webhookCreateObj, derivedStatus, hs, this]
    have hstatus2 : (ev.data.object.status = none ∨ ev.data.object.status = some "") →
        (webhookCreateObj ev st).status = some "NO-STATUS" := by
      intro h
      rcases h with h | h <;> simp [webhookCreateObj, derivedStatus, h]
    have hgoal : (webhookState ev st).logs = (webhookUpdatedStep ev
        (webhookCreatedStep ev (webhookLogStep ev st))).logs := rfl
    rcases hcase with hcase | hcase
    · refine ⟨?_, webhookCreateObj ev st, ?_, rfl, rfl, hstatus1, hstatus2⟩
      · show (webhookState ev st).logs.length = _
        rw [hgoal, hcase]
        simp
      · show (webhookState ev st).logs[st.logs.length]? = _
        rw [hgoal, hcase]
        exact List.getElem?_concat_length st.logs (webhookCreateObj ev st)
    · refine ⟨?_, webhookCreateObj ev st, ?_, rfl, rfl, hstatus1, hstatus2⟩
      · show (webhookState ev st).logs.length = _
        rw [hgoal, hcase, updateFirst_length]
        simp
      · show (webhookState ev st).logs[st.logs.length]? = _
        rw [hgoal, hcase]
        rcases updateFirst_getElem? (logIdFilter ev.data.object.metadata.paymentLog)
            (renewalLogPatch ev) (st.logs ++ [webhookCreateObj ev st]) st.logs.length with
          h | ⟨r, hr, hpr, _⟩
        · rw [h]
          exact List.getElem?_concat_length st.logs (webhookCreateObj ev st)
        · rw [List.getElem?_concat_length st.logs (webhookCreateObj ev st)] at hr
          injection hr with hr
          subst hr
          rw [hobj] at hpr
          exact absurd hpr (by simp)

/-- C4 witness: a `payment_intent.created` event with a present, non-empty
status appends one log with that status. -/
theorem webhook_paymentlog_creation_witness :
    (("payment_intent.created" : String) = "charge.succeeded" ∨
        ("payment_intent.created" : String) = "payment_method.attached" →
      ((webHook
        ⟨"payment_intent.created",
          ⟨⟨"pi1", some "requires_payment_method", ⟨"u1", "pr1", "pl1"⟩, "u1", 0, 0, "cus1", false⟩⟩⟩
        ⟨[], [], 0, 0⟩).1).logs = ([] : List PaymentLogRecord)) ∧
    (("payment_intent.created" : String) ≠ "charge.succeeded" →
      ("payment_intent.created" : String) ≠ "payment_method.attached" →
      ((webHook
        ⟨"payment_intent.created",
          ⟨⟨"pi1", some "requires_payment_method", ⟨"u1", "pr1", "pl1"⟩, "u1", 0, 0, "cus1", false⟩⟩⟩
        ⟨[], [], 0, 0⟩).1).logs.length = ([] : List PaymentLogRecord).length + 1 ∧
      ∃ nl, ((webHook
        ⟨"payment_intent.created",
          ⟨⟨"pi1", some "requires_payment_method", ⟨"u1", "pr1", "pl1"⟩, "u1", 0, 0, "cus1", false⟩⟩⟩
        ⟨[], [], 0, 0⟩).1).logs[([] : List PaymentLogRecord).length]? = some nl ∧
        nl.response = some ⟨"payment_intent.created",
          ⟨⟨"pi1", some "requires_payment_method", ⟨"u1", "pr1", "pl1"⟩, "u1", 0, 0, "cus1", false⟩⟩⟩ ∧
        nl.event = some "payment_intent.created" ∧
        (∀ s, (some "requires_payment_method" : Option String) = some s → s ≠ "" →
          nl.status = some s) ∧
        ((some "requires_payment_method" : Option String) = none ∨
            (some "requires_payment_method" : Option String) = some "" →
          nl.status = some "NO-STATUS")) :=
  webhook_paymentlog_creation
    ⟨"payment_intent.created",
      ⟨⟨"pi1", some "requires_payment_method", ⟨"u1", "pr1", "pl1"⟩, "u1", 0, 0, "cus1", false⟩⟩⟩
    ⟨[], [], 0, 0⟩ (by decide)

/-- C4 counterexample: an event whose `data.object.status` is present but the
empty string is logged with status `NO-STATUS`, not with the (present) empty
status — the source tests JavaScript truthiness, not presence. -/
theorem webhook_paymentlog_status_counterexample :
    (⟨"payment_intent.created",
        ⟨⟨"pi1", some "", ⟨"u1", "pr1", "pl1"⟩, "u1", 0, 0, "cus1", false⟩⟩⟩ : Event).data.object.status
        = some "" ∧
      ((webHook
        ⟨"payment_intent.created",
          ⟨⟨"pi1", some "", ⟨"u1", "pr1", "pl1"⟩, "u1", 0, 0, "cus1", false⟩⟩⟩
        ⟨[], [], 0, 0⟩).1).logs.map (fun l => l.status) = [some "NO-STATUS"] ∧
      ¬ ((webHook
        ⟨"payment_intent.created",
          ⟨⟨"pi1", some "", ⟨"u1", "pr1", "pl1"⟩, "u1", 0, 0, "cus1", false⟩⟩⟩
        ⟨[], [], 0, 0⟩).1).logs.map (fun l => l.status) = [some ""] := by
  refine ⟨rfl, rfl, by decide⟩

/-- C6 (amended): if `successUrl` or `cancelUrl` is missing (or empty, the only
falsy string), or `type` is present, non-empty and not `trial`, checkout
creation fails with HTTP 400 before any store or processor call: the state is
unchanged and the processor-call trace is empty. -/
theorem createCheckoutSession_validation (stripe : StripeEnv) (uid : String)
    (users : List String) (body : CheckoutBody) (now : Nat) (st : St)
    (h : body.successUrl.getD "" = "" ∨ body.cancelUrl.getD "" = "" ∨
      (body.type.getD "" ≠ "" ∧ body.type.getD "" ≠ "trial")) :
    (createCheckoutSession stripe uid users body now st).1 = st ∧
      (∃ m, (createCheckoutSession stripe uid users body now st).2.1 =
        HttpResult.err 400 m) ∧
      (createCheckoutSession stripe uid users body now st).2.2 = [] := by
  by_cases hc : (body.successUrl.getD "" == "" || body.cancelUrl.getD "" == "") = true
  · refine ⟨?_, ⟨"Please pass required all parameters.", ?_⟩, ?_⟩ <;>
      simp [createCheckoutSession, hc]
  · have hc' : (body.successUrl.getD "" == "" || body.cancelUrl.getD "" == "") = false := by
      simpa using hc
    rcases h with h | h | ⟨h1, h2⟩
    · exact absurd (by simp [h]) hc
    · exact absurd (by simp [h]) hc
    · have ht : (body.type.getD "" != "" && body.type.getD "" != "trial") = true := by
        simp [bne, beq_eq_false_iff_ne.mpr h1, beq_eq_false_iff_ne.mpr h2]
      refine ⟨?_, ⟨"Please pass valid type", ?_⟩, ?_⟩ <;>
        simp [createCheckoutSession, hc', ht]

/-- C6 witness: a request with no `successUrl` is rejected with 400, leaving
the state untouched and issuing no processor call. -/
theorem createCheckoutSession_validation_witness :
    (createCheckoutSession ⟨[⟨"p1"⟩], "sess"⟩ "u1" ["u1"]
        ⟨none, none, some "cu"⟩ 0 ⟨[], [], 0, 0⟩).1 = (⟨[], [], 0, 0⟩ : St) ∧
      (∃ m, (createCheckoutSession ⟨[⟨"p1"⟩], "sess"⟩ "u1" ["u1"]
          ⟨none, none, some "cu"⟩ 0 ⟨[], [], 0, 0⟩).2.1 = HttpResult.err 400 m) ∧
      (createCheckoutSession ⟨[⟨"p1"⟩], "sess"⟩ "u1" ["u1"]
          ⟨none, none, some "cu"⟩ 0 ⟨[], [], 0, 0⟩).2.2 = [] :=
  createCheckoutSession_validation ⟨[⟨"p1"⟩], "sess"⟩ "u1" ["u1"]
    ⟨none, none, some "cu"⟩ 0 ⟨[], [], 0, 0⟩ (Or.inl rfl)

/-- C6 counterexample: `type` present but equal to the empty string (hence not
`trial`) is treated as absent by the source's truthiness test, so the request
succeeds, mutates the store, and calls the processor instead of failing with a
`ValidationError`. -/
theorem createCheckoutSession_validation_counterexample :
    (⟨some "", some "su", some "cu"⟩ : CheckoutBody).type = some "" ∧
      (createCheckoutSession ⟨[⟨"p1"⟩], "sess"⟩ "u1" ["u1"]
          ⟨some "", some "su", some "cu"⟩ 0 ⟨[], [], 0, 0⟩).2.1 =
        HttpResult.ok (RespBody.url "sess") ∧
      (createCheckoutSession ⟨[⟨"p1"⟩], "sess"⟩ "u1" ["u1"]
          ⟨some "", some "su", some "cu"⟩ 0 ⟨[], [], 0, 0⟩).2.2 ≠ [] ∧
      (createCheckoutSession ⟨[⟨"p1"⟩], "sess"⟩ "u1" ["u1"]
          ⟨some "", some "su", some "cu"⟩ 0 ⟨[], [], 0, 0⟩).1 ≠ (⟨[], [], 0, 0⟩ : St) :=
  ⟨rfl, rfl, by decide, by decide⟩

/-- C7: a user already holding an `active` or `trialing` subscription with
unexpired `endDate` gets `ConflictError` (HTTP 401, "Subscription already
exist."), with no payment log created and no processor call issued. -/
theorem createCheckoutSession_conflict (stripe : StripeEnv) (uid : String)
    (users : List String) (body : CheckoutBody) (now : Nat) (st : St)
    (r : SubscriptionRecord)
    (hsu : body.successUrl.getD "" ≠ "") (hcu : body.cancelUrl.getD "" ≠ "")
    (hty : body.type.getD "" = "" ∨ body.type.getD "" = "trial")
    (huser : users.contains uid = true)
    (hsub : st.subs.find? (activeFilter uid now) = some r) :
    createCheckoutSession stripe uid users body now st =
      (st, HttpResult.err 401 "Subscription already exist.", []) := by
  have h1 : (body.successUrl.getD "" == "" || body.cancelUrl.getD "" == "") = false := by
    simp [beq_eq_false_iff_ne.mpr hsu, beq_eq_false_iff_ne.mpr hcu]
  have h2 : (body.type.getD "" != "" && body.type.getD "" != "trial") = false := by
    rcases hty with h | h <;> rw [h] <;> rfl
  have h3 : (!users.contains uid) = false := by rw [huser]; rfl
  have hmem : uid ∈ users := by simpa using huser
  simp [createCheckoutSession, h1, h2, h3, hmem, hsub]

/-- C7 witness: a concrete user with an unexpired active subscription. -/
theorem createCheckoutSession_conflict_witness :
    createCheckoutSession ⟨[⟨"p1"⟩], "sess"⟩ "u1" ["u1"] ⟨none, some "su", some "cu"⟩ 5
        ⟨[⟨3, "u1", "sub1", some "active", 1, 9, "complete", some "new", "cus1", "pr1"⟩],
          [], 4, 0⟩ =
      (⟨[⟨3, "u1", "sub1", some "active", 1, 9, "complete", some "new", "cus1", "pr1"⟩],
          [], 4, 0⟩,
        HttpResult.err 401 "Subscription already exist.", []) :=
  createCheckoutSession_conflict ⟨[⟨"p1"⟩], "sess"⟩ "u1" ["u1"]
    ⟨none, some "su", some "cu"⟩ 5
    ⟨[⟨3, "u1", "sub1", some "active", 1, 9, "complete", some "new", "cus1", "pr1"⟩],
      [], 4, 0⟩
    ⟨3, "u1", "sub1", some "active", 1, 9, "complete", some "new", "cus1", "pr1"⟩
    (by decide) (by decide) (Or.inl rfl) (by decide) (by decide)

/-- C8 (amended): with a non-empty `subscriptionId` that matches no record
owned by the caller with status `active`/`trialing` and unexpired `endDate`,
`cancelSubscription` fails with `NotFoundError` (HTTP 400, "Subscription does
not exist.") and issues no processor call; with a matching record it asks the
processor to cancel at period end and mutates no local record. -/
theorem cancelSubscription_spec (uid : String) (bodySid : Option String)
    (now : Nat) (st : St) (hne : bodySid.getD "" ≠ "") :
    (st.subs.find? (cancelSubFilter uid (bodySid.getD "") now) = none →
        cancelSubscription uid bodySid now st =
          (st, HttpResult.err 400 "Subscription does not exist.", [])) ∧
      ∀ r, st.subs.find? (cancelSubFilter uid (bodySid.getD "") now) = some r →
        cancelSubscription uid bodySid now st =
          (st, HttpResult.ok RespBody.success,
            [ProcCall.updateSubscriptionCall (bodySid.getD "") true]) := by
  have h0 : (bodySid.getD "" == "") = false := beq_eq_false_iff_ne.mpr hne
  constructor
  · intro h
    simp [cancelSubscription, h0, h]
  · intro r h
    simp [cancelSubscription, h0, h]

/-- C8 witness: a matching active record: the processor is told to cancel at
period end and the state is unchanged. -/
theorem cancelSubscription_spec_witness :
    ((⟨[⟨3, "u1", "sub1", some "active", 1, 9, "complete", some "new", "cus1", "pr1"⟩],
        [], 4, 0⟩ : St).subs.find? (cancelSubFilter "u1" ((some "sub1").getD "") 5) = none →
      cancelSubscription "u1" (some "sub1") 5
          ⟨[⟨3, "u1", "sub1", some "active", 1, 9, "complete", some "new", "cus1", "pr1"⟩],
            [], 4, 0⟩ =
        (⟨[⟨3, "u1", "sub1", some "active", 1, 9, "complete", some "new", "cus1", "pr1"⟩],
            [], 4, 0⟩,
          HttpResult.err 400 "Subscription does not exist.", [])) ∧
    ∀ r, (⟨[⟨3, "u1", "sub1", some "active", 1, 9, "complete", some "new", "cus1", "pr1"⟩],
        [], 4, 0⟩ : St).subs.find? (cancelSubFilter "u1" ((some "sub1").getD "") 5) = some r →
      cancelSubscription "u1" (some "sub1") 5
          ⟨[⟨3, "u1", "sub1", some "active", 1, 9, "complete", some "new", "cus1", "pr1"⟩],
            [], 4, 0⟩ =
        (⟨[⟨3, "u1", "sub1", some "active", 1, 9, "complete", some "new", "cus1", "pr1"⟩],
            [], 4, 0⟩,
          HttpResult.ok RespBody.success,
          [ProcCall.updateSubscriptionCall ((some "sub1").getD "") true]) :=
  cancelSubscription_spec "u1" (some "sub1") 5
    ⟨[⟨3, "u1", "sub1", some "active", 1, 9, "complete", some "new", "cus1", "pr1"⟩],
      [], 4, 0⟩ (by decide)

/-- C8 counterexample: an absent/empty `subscriptionId` (which matches no
record) fails with the `ValidationError` message, not with `NotFoundError`'s
"Subscription does not exist.". -/
theorem cancelSubscription_notfound_counterexample :
    (cancelSubscription "u1" (some "") 5 ⟨[], [], 0, 0⟩).2.1 =
        HttpResult.err 400 "Please pass required all parameters." ∧
      ¬ (cancelSubscription "u1" (some "") 5 ⟨[], [], 0, 0⟩).2.1 =
        HttpResult.err 400 "Subscription does not exist." :=
  ⟨rfl, by decide⟩

/-- C10: `cancelPayment`'s effect depends only on the supplied `paymentId`,
never on the authenticated caller: any two callers with the same body produce
identical results, and the update patches the first log with that id (status
and event set to `cancel`) with no ownership check. -/
theorem cancelPayment_caller_independent :
    (∀ (u1 u2 : String) (pid : Option String) (st : St),
        cancelPayment u1 pid st = cancelPayment u2 pid st) ∧
      ∀ (u : String) (pid : Option String) (st : St) (l : PaymentLogRecord),
        pid.getD "" ≠ "" →
        st.logs.find? (logIdFilter (pid.getD "")) = some l →
        (cancelPayment u pid st).1.logs.find? (logIdFilter (pid.getD "")) =
          some { l with status := some "cancel", event := some "cancel" } := by
  constructor
  · intro u1 u2 pid st
    rfl
  · intro u pid st l hne hfind
    have h0 : (pid.getD "" == "") = false := beq_eq_false_iff_ne.mpr hne
    have hp : logIdFilter (pid.getD "")
        { l with status := some "cancel", event := some "cancel" } = true := by
      have hpl : logIdFilter (pid.getD "") l = true := List.find?_some hfind
      simpa [logIdFilter] using hpl
    have hlogs : (cancelPayment u pid st).1.logs =
        updateFirst (logIdFilter (pid.getD ""))
          (fun x => { x with status := some "cancel", event := some "cancel" }) st.logs := by
      simp [cancelPayment, h0]
    rw [hlogs]
    exact find?_updateFirst _ _ _ _ hfind hp

/-- C10 witness: two distinct callers cancelling the same payment id produce
the same result, and the (caller-independent) patch is applied. -/
theorem cancelPayment_caller_independent_witness :
    cancelPayment "alice" (some "p")
        ⟨[], [⟨"p", some "owner", none, none, none, none⟩], 0, 1⟩ =
      cancelPayment "bob" (some "p")
        ⟨[], [⟨"p", some "owner", none, none, none, none⟩], 0, 1⟩ ∧
    (cancelPayment "alice" (some "p")
        ⟨[], [⟨"p", some "owner", none, none, none, none⟩], 0, 1⟩).1.logs.find?
        (logIdFilter ((some "p").getD "")) =
      some ⟨"p", some "owner", none, none, some "cancel", some "cancel"⟩ :=
  ⟨cancelPayment_caller_independent.1 "alice" "bob" (some "p")
      ⟨[], [⟨"p", some "owner", none, none, none, none⟩], 0, 1⟩,
    cancelPayment_caller_independent.2 "alice" (some "p")
      ⟨[], [⟨"p", some "owner", none, none, none, none⟩], 0, 1⟩
      ⟨"p", some "owner", none, none, none, none⟩ (by decide) rfl⟩
